import Mathlib

/-
  Verification of the WanderFlow workflow-synchronization client
  (src/components/workflow_manager.py, src/utils/session_state.py,
  src/dashboard.py) against its natural-language specification.

  The Python code is shallowly embedded: the remote Conductor gateway is a
  record of response functions, Streamlit session state is an association
  list read through `SessionState.get` (first binding wins, matching dict
  update shadowing), and the unbounded polling loops are run on an explicit
  iteration budget (fuel) over a stream of per-poll gateway responses.
  Python exceptions raised by gateway calls are modelled with `Except`;
  the catch-all `except Exception` handlers of the source correspond to the
  `.error` branches of the embedding.
-/

set_option maxHeartbeats 1000000

namespace WanderFlow

/-- Python values as they appear in workflow outputs and task payloads,
with Python truthiness. -/
inductive PyVal where
  | vNone : PyVal
  | vBool : Bool → PyVal
  | vInt : Int → PyVal
  | vStr : String → PyVal
deriving DecidableEq

/-- Python truthiness of a `PyVal` (`bool(v)`). -/
def PyVal.truthy : PyVal → Bool
  | .vNone => false
  | .vBool b => b
  | .vInt n => !(n == 0)
  | .vStr s => !(s == "")

/-- A Python dict with string keys, as an association list. -/
abbrev Dict := List (String × PyVal)

/-- `d.get(key)`: `some` the stored value, `none` when the key is absent. -/
def dictGet (d : Dict) (key : String) : Option PyVal :=
  (d.find? (fun p => p.1 == key)).map (fun p => p.2)

/-- A Conductor task as observed by the client: the four attributes the
WanderFlow code reads (`task_id`, `reference_task_name`, `status`,
`task_type`). -/
structure Task where
  task_id : String
  reference_task_name : String
  status : String
  task_type : String
deriving DecidableEq

/-- Values stored in Streamlit session state by `SessionState`. -/
inductive SVal where
  | sNone : SVal
  | sBool : Bool → SVal
  | sInt : Int → SVal
  | sStr : String → SVal
  | sIntList : List Int → SVal
deriving DecidableEq

/-- Python truthiness of a session-state value. -/
def SVal.truthy : SVal → Bool
  | .sNone => false
  | .sBool b => b
  | .sInt n => !(n == 0)
  | .sStr s => !(s == "")
  | .sIntList l => !l.isEmpty

/-- `st.session_state`, an association list in which the first binding for a
key is the current one (`SessionState.set` shadows older bindings, exactly
like a dict assignment as observed through `SessionState.get`). -/
abbrev SState := List (String × SVal)

namespace SessionState

/-- `SessionState.DEFAULTS` of src/utils/session_state.py, transcribed
entry for entry. -/
def DEFAULTS : List (String × SVal) := [
  ("workflow_id", SVal.sNone),
  ("pref_task_id", SVal.sNone),
  ("show_task_id", SVal.sNone),
  ("choice_task_id", SVal.sNone),
  ("choice_travel_city_task_id", SVal.sNone),
  ("request_confirmation_task_id", SVal.sNone),
  ("show_more_info_task_id", SVal.sNone),
  ("confirmation_response", SVal.sNone),
  ("itinerary", SVal.sNone),
  ("travel_options", SVal.sNone),
  ("selected_travel_option", SVal.sNone),
  ("choice_task_completed", SVal.sBool false),
  ("is_short_trip", SVal.sBool false),
  ("trip_duration", SVal.sNone),
  ("extra_requested", SVal.sBool false),
  ("extra_info", SVal.sNone),
  ("selected_country", SVal.sStr ""),
  ("confirmed_country", SVal.sStr ""),
  ("last_selected_country", SVal.sStr ""),
  ("last_confirmed_country", SVal.sStr ""),
  ("current_step", SVal.sInt 0),
  ("map_zoom", SVal.sInt 2),
  ("map_center", SVal.sIntList [30, 0]),
  ("preferences_submitted", SVal.sBool false),
  ("itinerary_confirmed", SVal.sBool false),
  ("workflow_completed", SVal.sBool false),
  ("country_selection_made", SVal.sBool false),
  ("map_needs_update", SVal.sBool false)]

/-- Raw key lookup in session state (`key in st.session_state` plus the
stored value). -/
def lookup (st : SState) (key : String) : Option SVal :=
  (st.find? (fun p => p.1 == key)).map (fun p => p.2)

/-- `SessionState.get(key)` with its default of `None`. -/
def get (st : SState) (key : String) : SVal :=
  (lookup st key).getD SVal.sNone

/-- `SessionState.set(key, value)`: dict assignment. -/
def set (st : SState) (key : String) (v : SVal) : SState :=
  (key, v) :: st

/-- `key in st.session_state`. -/
def containsKey (st : SState) (key : String) : Bool :=
  st.any (fun p => p.1 == key)

/-- `SessionState.reset()`: assign every `DEFAULTS` entry. -/
def reset (st : SState) : SState :=
  DEFAULTS.foldl (fun s p => set s p.1 p.2) st

/-- `SessionState.initialize()`: assign each `DEFAULTS` entry whose key is
not yet present. -/
def initState (st : SState) : SState :=
  DEFAULTS.foldl (fun s p => if containsKey s p.1 then s else set s p.1 p.2) st

end SessionState

/-- The actionable statuses of `WorkflowManager.fetch_task_by_ref`
(workflow_manager.py line 75). -/
def actionableStatuses : List String := ["SCHEDULED", "IN_PROGRESS", "PENDING"]

/-- The per-task test on line 75 of workflow_manager.py:
`task.reference_task_name == ref_name and task.status in (...)`. -/
def taskMatches (ref_name : String) (t : Task) : Bool :=
  t.reference_task_name == ref_name && actionableStatuses.contains t.status

/-- `WorkflowManager.fetch_task_by_ref` with its `st.error` side channel made
explicit: the first component is the returned value, the second the list of
UI error messages emitted.  `resp` is the gateway's answer to
`get_workflow(wf_id, include_tasks=True)`: the task list, or a raised
exception. -/
def fetch_task_by_ref_ui (resp : Except String (List Task)) (ref_name : String) :
    Option Task × List String :=
  match resp with
  | .error e => (none, ["Error fetching task " ++ ref_name ++ ": " ++ e])
  | .ok tasks => (tasks.find? (taskMatches ref_name), [])

/-- The value `fetch_task_by_ref` returns to its caller. -/
def fetch_task_by_ref (resp : Except String (List Task)) (ref_name : String) :
    Option Task :=
  (fetch_task_by_ref_ui resp ref_name).1

/-- The remote Conductor gateway as seen through the three task-client calls
made by `complete_task`; each may raise (`Except.error`). -/
structure Gateway where
  get_task : String → Except String Task
  poll_task : String → String → Except String Unit
  update_task : String → SVal → String → String → Dict → Except String Unit

/-- One remote call emitted by `complete_task`, recorded for trace
reasoning.  `updateTask` carries exactly the fields of the dict passed to
`task_client.update_task` in workflow_manager.py lines 104-110. -/
inductive GatewayCall where
  | getTask : String → GatewayCall
  | pollTask : String → String → GatewayCall
  | updateTask : String → SVal → String → String → Dict → GatewayCall
deriving DecidableEq

/-- `WorkflowManager.complete_task(task_id, status, output)`.  Returns the
boolean result, the session state after the call, and the trace of remote
calls performed.  The source's control flow, in order: `get_task`, then
`poll_task(task_type, "streamlit_ui")`, then the attribute read
`st.session_state.workflow_id` (raising if the key is absent), then
`update_task`; any raised exception is caught by the blanket handler and
turned into `False`.  The function never writes session state. -/
def complete_task (gw : Gateway) (st : SState) (task_id : String)
    (status : String) (output : Dict) : Bool × SState × List GatewayCall :=
  match gw.get_task task_id with
  | .error _ => (false, st, [GatewayCall.getTask task_id])
  | .ok task =>
    match gw.poll_task task.task_type "streamlit_ui" with
    | .error _ =>
        (false, st, [GatewayCall.getTask task_id,
                     GatewayCall.pollTask task.task_type "streamlit_ui"])
    | .ok _ =>
      match SessionState.lookup st "workflow_id" with
      | none =>
          (false, st, [GatewayCall.getTask task_id,
                       GatewayCall.pollTask task.task_type "streamlit_ui"])
      | some wfid =>
        match gw.update_task task_id wfid "streamlit_ui" status output with
        | .error _ =>
            (false, st, [GatewayCall.getTask task_id,
                         GatewayCall.pollTask task.task_type "streamlit_ui",
                         GatewayCall.updateTask task_id wfid "streamlit_ui" status output])
        | .ok _ =>
            (true, st, [GatewayCall.getTask task_id,
                        GatewayCall.pollTask task.task_type "streamlit_ui",
                        GatewayCall.updateTask task_id wfid "streamlit_ui" status output])

/-- Is a recorded gateway call an `update_task` round-trip? -/
def isUpdateCall : GatewayCall → Bool
  | .updateTask _ _ _ _ _ => true
  | _ => false

/-- Number of effective remote updates in a call trace. -/
def countUpdates (calls : List GatewayCall) : Nat :=
  (calls.filter isUpdateCall).length

/-- The loop test of `wait_for_output_key` (workflow_manager.py line 137):
`wf.output and wf.output.get(key)` — the output dict is truthy (present and
non-empty) and holds a truthy value at `key`.  `out` is `wf.output`, which
the client may observe as `None`. -/
def output_key_ready (out : Option Dict) (key : String) : Bool :=
  match out with
  | none => false
  | some d => !d.isEmpty &&
      (match dictGet d key with
       | some v => v.truthy
       | none => false)

/-- `wf.output[key]` as read on line 138 when the loop test succeeded. -/
def output_key_value (out : Option Dict) (key : String) : Option PyVal :=
  match out with
  | none => none
  | some d => dictGet d key

/-- Did a given poll leave the `wait_for_output_key` loop waiting?  True on a
raised exception (caught, warned, retried) and on a fetched output that is
absent, missing the key, or falsy at the key. -/
def poll_not_ready (r : Except String (Option Dict)) (key : String) : Bool :=
  match r with
  | .error _ => true
  | .ok out => !(output_key_ready out key)

/-- `WorkflowManager.wait_for_output_key` run on an explicit iteration
budget.  `polls i` is the gateway's answer to the i-th
`get_workflow(wf_id, include_tasks=False)`: the run's output dict (possibly
`None`), or a raised exception.  The loop in the source is `while True`; the
`fuel` argument is the embedding's iteration budget, and exhausting it
(`none`) means the loop was still running — the source has no exit that
returns without a ready key. -/
def wait_for_output_key (polls : Nat → Except String (Option Dict))
    (key : String) : Nat → Nat → Option PyVal
  | _, 0 => none
  | i, fuel + 1 =>
    match polls i with
    | .error _ => wait_for_output_key polls key (i + 1) fuel
    | .ok out =>
      if output_key_ready out key then output_key_value out key
      else wait_for_output_key polls key (i + 1) fuel

/-- `WorkflowManager.wait_for_task_to_be_available(wf_id, ref_name, timeout)`
run with the timeout counted in loop iterations (the source sleeps 1 second
per iteration and loops while `time.time() - start_time < timeout`).  Unlike
`wait_for_output_key`, exhausting the bound is a real exit of the source: it
warns and returns `None`, the distinguishable timeout result.  `polls i` is
the i-th `get_workflow` response consumed through `fetch_task_by_ref`. -/
def wait_for_task_to_be_available (polls : Nat → Except String (List Task))
    (ref_name : String) : Nat → Nat → Option String
  | _, 0 => none
  | i, fuel + 1 =>
    match fetch_task_by_ref (polls i) ref_name with
    | some t => some t.task_id
    | none => wait_for_task_to_be_available polls ref_name (i + 1) fuel

/-- `WorkflowManager.cache_task(ref_name, state_key)`: when a workflow id is
cached, fetch the reference and, if the fetched task id differs from the
cached value, overwrite the cache entry.  `resp` is the gateway's answer to
the `get_workflow` call made inside `fetch_task_by_ref`. -/
def cache_task (st : SState) (resp : Except String (List Task))
    (ref_name state_key : String) : SState :=
  if (SessionState.get st "workflow_id").truthy then
    match fetch_task_by_ref resp ref_name with
    | some task =>
        if SessionState.get st state_key ≠ SVal.sStr task.task_id then
          SessionState.set st state_key (SVal.sStr task.task_id)
        else st
    | none => st
  else st

/-- The analysis record built by `WorkflowManager.is_workflow_stuck`
(workflow_manager.py lines 491-509). -/
structure StuckAnalysis where
  workflow_status : String
  total_tasks : Nat
  completed_count : Nat
  scheduled_count : Nat
  has_unhandled_duration : Bool
  is_stuck : Bool
  reason : Option String
deriving DecidableEq

/-- `WorkflowManager.is_workflow_stuck` on a successfully fetched workflow:
filter completed and scheduled tasks, look for a `LogUnhandledDuration`
task, then classify exactly as the source's two stuck branches do. -/
def is_workflow_stuck (wf_status : String) (tasks : List Task) : StuckAnalysis :=
  let completed_tasks := tasks.filter (fun t => t.status == "COMPLETED")
  let scheduled_tasks := tasks.filter (fun t => t.status == "SCHEDULED")
  let unhandled_duration_task :=
    tasks.find? (fun t => t.reference_task_name == "LogUnhandledDuration")
  let analysis : StuckAnalysis :=
    { workflow_status := wf_status
      total_tasks := tasks.length
      completed_count := completed_tasks.length
      scheduled_count := scheduled_tasks.length
      has_unhandled_duration := unhandled_duration_task.isSome
      is_stuck := false
      reason := none }
  if unhandled_duration_task.isSome then
    { analysis with
      is_stuck := true
      reason := some "Duration of 4 days is not handled by the workflow" }
  else
    match completed_tasks with
    | [t] =>
        if t.reference_task_name == "UserPreferences" && scheduled_tasks.length == 0 then
          { analysis with
            is_stuck := true
            reason := some "Workflow stopped after UserPreferences - check switch logic" }
        else analysis
    | _ => analysis

/-- `SessionState.set_step(step)` stores `max(0, min(step, 3))`. -/
def set_step (step : Int) : Int := max 0 (min step 3)

/-- `SessionState.advance_step()` stores `min(current + 1, 3)`. -/
def advance_step (current : Int) : Int := min (current + 1) 3

/-- The two operations that write `current_step`. -/
inductive StepOp where
  | setStep : Int → StepOp
  | advanceStep : StepOp

/-- Apply one step operation to the stored counter. -/
def stepApply (c : Int) : StepOp → Int
  | .setStep s => set_step s
  | .advanceStep => advance_step c

/-- Run a sequence of step operations from the initialized counter
(`DEFAULTS` stores `current_step = 0`). -/
def runSteps (ops : List StepOp) : Int := ops.foldl stepApply 0

/-! ### Helper lemmas -/

/-- The boolean test of line 75 holds exactly when the reference name matches
and the status is actionable. -/
lemma taskMatches_iff (ref_name : String) (t : Task) :
    taskMatches ref_name t = true ↔
      t.reference_task_name = ref_name ∧ t.status ∈ actionableStatuses := by
  simp [taskMatches, actionableStatuses, List.contains]

/-- `List.find?` returns the first satisfying element: the list splits around
the result, and everything before it fails the predicate. -/
lemma find_first_split {α : Type} (p : α → Bool) :
    ∀ (l : List α) (a : α), l.find? p = some a →
      p a = true ∧ ∃ pre post, l = pre ++ a :: post ∧ ∀ u ∈ pre, p u = false := by
  intro l
  induction l with
  | nil => intro a h; simp [List.find?] at h
  | cons x xs ih =>
    intro a h
    by_cases hx : p x = true
    · rw [List.find?_cons_of_pos _ hx] at h
      cases h
      exact ⟨hx, [], xs, rfl, by simp⟩
    · rw [List.find?_cons_of_neg _ hx] at h
      obtain ⟨hpa, pre, post, hsplit, hpre⟩ := ih a h
      refine ⟨hpa, x :: pre, post, by simp [hsplit], ?_⟩
      intro u hu
      rcases List.mem_cons.mp hu with h1 | h2
      · subst h1; exact Bool.not_eq_true _ ▸ eq_false_of_ne_true hx
      · exact hpre u h2

/-- `fetch_task_by_ref` on a successful gateway response is `none` exactly
when no task in the list matches the reference with an actionable status. -/
lemma fetch_ok_eq_none_iff (tasks : List Task) (ref_name : String) :
    fetch_task_by_ref (Except.ok tasks) ref_name = none ↔
      ∀ t ∈ tasks, ¬(t.reference_task_name = ref_name ∧ t.status ∈ actionableStatuses) := by
  simp only [fetch_task_by_ref, fetch_task_by_ref_ui]
  rw [List.find?_eq_none]
  constructor
  · intro h t ht hc
    exact h t ht ((taskMatches_iff ref_name t).mpr hc)
  · intro h t ht hm
    exact h t ht ((taskMatches_iff ref_name t).mp hm)

end WanderFlow

namespace WanderFlow

/-! ### C2 — Task Locator -/

/-- C2: for every run and reference name, `fetch_task_by_ref` on the
engine-provided task list returns the first task whose reference name matches
and whose status is in {SCHEDULED, IN_PROGRESS, PENDING}; it returns `none`
exactly when no such task exists; and it never returns a task whose status is
outside the actionable set, whatever the gateway response. -/
theorem C2_locate_first_actionable (tasks : List Task) (ref_name : String) :
    (∀ t, fetch_task_by_ref (Except.ok tasks) ref_name = some t →
      (t.reference_task_name = ref_name ∧ t.status ∈ actionableStatuses) ∧
      ∃ pre post, tasks = pre ++ t :: post ∧
        ∀ u ∈ pre, ¬(u.reference_task_name = ref_name ∧ u.status ∈ actionableStatuses)) ∧
    (fetch_task_by_ref (Except.ok tasks) ref_name = none ↔
      ∀ t ∈ tasks, ¬(t.reference_task_name = ref_name ∧ t.status ∈ actionableStatuses)) ∧
    (∀ (resp : Except String (List Task)) t,
      fetch_task_by_ref resp ref_name = some t → t.status ∈ actionableStatuses) := by
  refine ⟨?_, ?_, ?_⟩
  · intro t ht
    simp only [fetch_task_by_ref, fetch_task_by_ref_ui] at ht
    obtain ⟨hpa, pre, post, hsplit, hpre⟩ := find_first_split (taskMatches ref_name) tasks t ht
    refine ⟨(taskMatches_iff ref_name t).mp hpa, pre, post, hsplit, ?_⟩
    intro u hu hc
    have := (taskMatches_iff ref_name u).mpr hc
    rw [hpre u hu] at this
    exact Bool.noConfusion this
  · exact fetch_ok_eq_none_iff tasks ref_name
  · intro resp t ht
    cases resp with
    | error e => simp [fetch_task_by_ref, fetch_task_by_ref_ui] at ht
    | ok ts =>
      simp only [fetch_task_by_ref, fetch_task_by_ref_ui] at ht
      exact ((taskMatches_iff ref_name t).mp (List.find?_some ht)).2

/-- Sample tasks for the locator: a completed instance of `UserPreferences`
followed by a scheduled one. -/
def doneUserPrefs : Task := ⟨"t0", "UserPreferences", "COMPLETED", "SIMPLE"⟩

/-- The scheduled `UserPreferences` instance the locator should pick. -/
def schedUserPrefs : Task := ⟨"t1", "UserPreferences", "SCHEDULED", "SIMPLE"⟩

/-- Witness for C2: on `[doneUserPrefs, schedUserPrefs]` the locator skips the
completed task and returns the scheduled one; on a list holding only the
completed task it returns `none`. -/
theorem C2_locate_first_actionable_witness :
    ((schedUserPrefs.reference_task_name = "UserPreferences" ∧
        schedUserPrefs.status ∈ actionableStatuses) ∧
      ∃ pre post, [doneUserPrefs, schedUserPrefs] = pre ++ schedUserPrefs :: post ∧
        ∀ u ∈ pre, ¬(u.reference_task_name = "UserPreferences" ∧
          u.status ∈ actionableStatuses)) ∧
    fetch_task_by_ref (Except.ok [doneUserPrefs]) "UserPreferences" = none :=
  ⟨(C2_locate_first_actionable [doneUserPrefs, schedUserPrefs] "UserPreferences").1
      schedUserPrefs (by decide),
   (C2_locate_first_actionable [doneUserPrefs] "UserPreferences").2.1.mpr (by decide)⟩

/-! ### C7 — errors versus NotFound -/

/-- C7 counterexample: a raised gateway exception and a legitimate "no
actionable task yet" produce the very same return value `none`, so the caller
of `fetch_task_by_ref` cannot distinguish a transport failure from NotFound
by the returned value, contrary to the claim. -/
theorem C7_error_equals_notfound :
    fetch_task_by_ref (Except.error "connection refused") "UserPreferences" = none ∧
    fetch_task_by_ref (Except.ok ([] : List Task)) "UserPreferences" = none ∧
    fetch_task_by_ref (Except.error "connection refused") "UserPreferences" =
      fetch_task_by_ref (Except.ok ([] : List Task)) "UserPreferences" :=
  ⟨rfl, rfl, rfl⟩

/-- C7 amended: a gateway error during `fetch_task_by_ref` is reported only on
the `st.error` UI side channel; the value returned to the caller is `none` in
both the error case and the NotFound case, so the two are indistinguishable
from the returned value alone. -/
theorem C7_error_distinct_only_in_ui (e ref_name : String) (tasks : List Task)
    (h : ∀ t ∈ tasks, ¬(t.reference_task_name = ref_name ∧ t.status ∈ actionableStatuses)) :
    fetch_task_by_ref (Except.error e) ref_name =
      fetch_task_by_ref (Except.ok tasks) ref_name ∧
    (fetch_task_by_ref_ui (Except.error e) ref_name).2 ≠ [] ∧
    (fetch_task_by_ref_ui (Except.ok tasks) ref_name).2 = [] := by
  refine ⟨?_, by simp [fetch_task_by_ref_ui], rfl⟩
  have hn : fetch_task_by_ref (Except.ok tasks) ref_name = none :=
    (fetch_ok_eq_none_iff tasks ref_name).mpr h
  rw [hn]; rfl

/-- Witness for C7 amended: with a failing gateway on one side and an empty
task list on the other, the returned values coincide and only the UI channel
differs. -/
theorem C7_error_distinct_only_in_ui_witness :
    fetch_task_by_ref (Except.error "timeout") "ShowItinerary" =
      fetch_task_by_ref (Except.ok ([] : List Task)) "ShowItinerary" ∧
    (fetch_task_by_ref_ui (Except.error "timeout") "ShowItinerary").2 ≠ [] ∧
    (fetch_task_by_ref_ui (Except.ok ([] : List Task)) "ShowItinerary").2 = [] :=
  C7_error_distinct_only_in_ui "timeout" "ShowItinerary" [] (by simp)

/-! ### Session-state lemmas -/

/-- Reading back the key just assigned returns the assigned value. -/
lemma get_set_self (st : SState) (key : String) (v : SVal) :
    SessionState.get (SessionState.set st key v) key = v := by
  simp [SessionState.get, SessionState.lookup, SessionState.set, List.find?_cons]

/-- Assigning one key leaves reads of a different key unchanged. -/
lemma get_set_ne (st : SState) (key key2 : String) (v : SVal) (h : key2 ≠ key) :
    SessionState.get (SessionState.set st key v) key2 = SessionState.get st key2 := by
  simp only [SessionState.get, SessionState.lookup, SessionState.set, List.find?_cons]
  have : ((key, v).1 == key2) = false := by
    simp only [beq_eq_false_iff_ne, ne_eq]
    exact fun hk => h (hk.symm)
  rw [this]

/-- A fold of assignments over pairs whose keys all differ from `key` leaves
reads of `key` unchanged. -/
lemma get_foldl_set_not_mem (l : List (String × SVal)) (st : SState) (key : String)
    (hk : ∀ p ∈ l, p.1 ≠ key) :
    SessionState.get (l.foldl (fun s p => SessionState.set s p.1 p.2) st) key =
      SessionState.get st key := by
  induction l generalizing st with
  | nil => rfl
  | cons q l ih =>
    simp only [List.foldl_cons]
    rw [ih _ (fun p hp => hk p (List.mem_cons_of_mem q hp)),
      get_set_ne st q.1 key q.2 (Ne.symm (hk q (List.mem_cons_self q l)))]

/-- After folding assignments of a list with pairwise-distinct keys, reading
any of its keys returns the paired value, whatever the starting state. -/
lemma get_foldl_set_mem (l : List (String × SVal)) (st : SState) (key : String) (v : SVal)
    (hmem : (key, v) ∈ l) (hnd : (l.map Prod.fst).Nodup) :
    SessionState.get (l.foldl (fun s p => SessionState.set s p.1 p.2) st) key = v := by
  induction l generalizing st with
  | nil => cases hmem
  | cons q l ih =>
    rw [List.map_cons, List.nodup_cons] at hnd
    obtain ⟨hq, hnd2⟩ := hnd
    simp only [List.foldl_cons]
    rcases List.mem_cons.mp hmem with heq | hmem2
    · have hqkey : q.1 = key := by rw [← heq]
      have hkeys : ∀ p ∈ l, p.1 ≠ key := by
        intro p hp hpk
        exact hq (hqkey ▸ hpk ▸ List.mem_map_of_mem Prod.fst hp)
      rw [get_foldl_set_not_mem l _ key hkeys]
      have hv : q.2 = v := by rw [← heq]
      rw [← hqkey, ← hv, get_set_self]
    · exact ih _ hmem2 hnd2

/-- `complete_task` never writes session state: the returned state is the
input state on every control path (success, gateway failure, missing
workflow id). -/
lemma complete_task_fixes_state (gw : Gateway) (st : SState) (task_id status : String)
    (output : Dict) : (complete_task gw st task_id status output).2.1 = st := by
  cases hg : gw.get_task task_id with
  | error e => simp [complete_task, hg]
  | ok task =>
    cases hp : gw.poll_task task.task_type "streamlit_ui" with
    | error e => simp [complete_task, hg, hp]
    | ok u =>
      cases hl : SessionState.lookup st "workflow_id" with
      | none => simp [complete_task, hg, hp, hl]
      | some wfid =>
        cases hu : gw.update_task task_id wfid "streamlit_ui" status output with
        | error e => simp [complete_task, hg, hp, hl, hu]
        | ok u2 => simp [complete_task, hg, hp, hl, hu]

/-! ### C5 — Session Cache reset -/

/-- C5: `reset` assigns every `DEFAULTS` entry back to its default, so for
every key with a default — including the six cached task-id resolutions and
the cached outputs — a `get` after `reset` returns that default, whatever the
session state held before. -/
theorem C5_reset_restores_defaults (st : SState) (key : String) (v : SVal)
    (h : (key, v) ∈ SessionState.DEFAULTS) :
    SessionState.get (SessionState.reset st) key = v :=
  get_foldl_set_mem SessionState.DEFAULTS st key v h (by decide)

/-- Witness for C5: a state holding a stale resolved task id for
`pref_task_id` reads back as `None` after `reset`. -/
theorem C5_reset_restores_defaults_witness :
    SessionState.get (SessionState.reset [("pref_task_id", SVal.sStr "t1")])
      "pref_task_id" = SVal.sNone :=
  C5_reset_restores_defaults [("pref_task_id", SVal.sStr "t1")] "pref_task_id"
    SVal.sNone (by decide)

/-! ### C4 — cached resolution lifecycle -/

/-- A session that has already resolved `UserPreferences` to task `t1`. -/
def stCached : SState :=
  [("workflow_id", SVal.sStr "wf-1"), ("pref_task_id", SVal.sStr "t1")]

/-- An engine response in which a different instance `t2` of
`UserPreferences` is the actionable one (for example after an engine-side
retry); the client has completed nothing. -/
def respNewInstance : Except String (List Task) :=
  Except.ok [⟨"t2", "UserPreferences", "SCHEDULED", "SIMPLE"⟩]

/-- C4 counterexample: with `pref_task_id` cached as `t1` and no completion
performed by this client, a single `cache_task` call re-resolves the
reference and overwrites the cache entry with `t2` — the mapping is not
reused until completion, contrary to the claim. -/
theorem C4_cache_overwritten_without_completion :
    SessionState.get stCached "pref_task_id" = SVal.sStr "t1" ∧
    SessionState.get (cache_task stCached respNewInstance "UserPreferences" "pref_task_id")
      "pref_task_id" = SVal.sStr "t2" := by decide

/-- C4 amended: `cache_task` re-resolves the reference on every call and
leaves the entry holding whatever task id the engine currently reports as
actionable (overwriting any different cached id, completed or not), and
completing a task via `complete_task` never modifies the session cache, so
no entry is cleared on completion; a future instance of a looping reference
is picked up by this overwrite-on-refetch, not by clearing. -/
theorem C4_cache_follows_engine (st : SState) (resp : Except String (List Task))
    (ref_name state_key : String) (t : Task)
    (hwf : (SessionState.get st "workflow_id").truthy = true)
    (hf : fetch_task_by_ref resp ref_name = some t) :
    SessionState.get (cache_task st resp ref_name state_key) state_key =
      SVal.sStr t.task_id ∧
    ∀ gw task_id status output,
      (complete_task gw (cache_task st resp ref_name state_key) task_id status output).2.1 =
        cache_task st resp ref_name state_key := by
  constructor
  · simp only [cache_task, hwf, hf, if_true]
    split
    · exact get_set_self st state_key (SVal.sStr t.task_id)
    · next hc => rw [not_not.mp hc]
  · intro gw task_id status output
    exact complete_task_fixes_state gw _ task_id status output

/-- Witness for C4 amended: applying `cache_task` on the cached state of the
counterexample scenario stores the engine-reported id `t2`, and a subsequent
`complete_task` leaves the cache untouched. -/
theorem C4_cache_follows_engine_witness :
    SessionState.get (cache_task stCached respNewInstance "UserPreferences" "pref_task_id")
      "pref_task_id" = SVal.sStr "t2" ∧
    ∀ gw task_id status output,
      (complete_task gw
        (cache_task stCached respNewInstance "UserPreferences" "pref_task_id")
        task_id status output).2.1 =
        cache_task stCached respNewInstance "UserPreferences" "pref_task_id" :=
  C4_cache_follows_engine stCached respNewInstance "UserPreferences" "pref_task_id"
    ⟨"t2", "UserPreferences", "SCHEDULED", "SIMPLE"⟩ (by decide) (by decide)

/-! ### C10 — complete_task is total and leaves the session unchanged -/

/-- C10: `complete_task` is total at its interface — the blanket exception
handler is modelled by the `.error` branches, so for every gateway behavior
it returns a boolean rather than propagating: a failure of `get_task`, of
`poll_task`, or of `update_task` each yields `False`, and on every path
(success or failure) the session state, including every cached task-id
entry, is returned unchanged, so retrying is safe. -/
theorem C10_complete_task_total (gw : Gateway) (st : SState) (task_id status : String)
    (output : Dict) :
    (complete_task gw st task_id status output).2.1 = st ∧
    (∀ e, gw.get_task task_id = Except.error e →
      (complete_task gw st task_id status output).1 = false) ∧
    (∀ task e, gw.get_task task_id = Except.ok task →
      gw.poll_task task.task_type "streamlit_ui" = Except.error e →
      (complete_task gw st task_id status output).1 = false) ∧
    (∀ task wfid e, gw.get_task task_id = Except.ok task →
      gw.poll_task task.task_type "streamlit_ui" = Except.ok () →
      SessionState.lookup st "workflow_id" = some wfid →
      gw.update_task task_id wfid "streamlit_ui" status output = Except.error e →
      (complete_task gw st task_id status output).1 = false) := by
  refine ⟨complete_task_fixes_state gw st task_id status output, ?_, ?_, ?_⟩
  · intro e hg
    simp [complete_task, hg]
  · intro task e hg hp
    simp [complete_task, hg, hp]
  · intro task wfid e hg hp hl hu
    simp [complete_task, hg, hp, hl, hu]

/-- A gateway whose `update_task` raises: the itinerary-submission scenario
in which the final call fails. -/
def gwUpdateFails : Gateway :=
  { get_task := fun tid => Except.ok ⟨tid, "UserPreferences", "IN_PROGRESS", "SIMPLE"⟩
    poll_task := fun _ _ => Except.ok ()
    update_task := fun _ _ _ _ _ => Except.error "503 service unavailable" }

/-- Witness for C10: when `update_task` raises, `complete_task` returns
`false` and the session state comes back exactly as it went in. -/
theorem C10_complete_task_total_witness :
    (complete_task gwUpdateFails stCached "t1" "COMPLETED" []).2.1 = stCached ∧
    (complete_task gwUpdateFails stCached "t1" "COMPLETED" []).1 = false :=
  ⟨(C10_complete_task_total gwUpdateFails stCached "t1" "COMPLETED" []).1,
   (C10_complete_task_total gwUpdateFails stCached "t1" "COMPLETED" []).2.2.2
     ⟨"t1", "UserPreferences", "IN_PROGRESS", "SIMPLE"⟩ (SVal.sStr "wf-1")
     "503 service unavailable" rfl rfl (by decide) rfl⟩

/-! ### C1 — no completion record, repeated completions repeat the update -/

/-- A gateway on which every call succeeds. -/
def gwOk : Gateway :=
  { get_task := fun tid => Except.ok ⟨tid, "UserPreferences", "IN_PROGRESS", "SIMPLE"⟩
    poll_task := fun _ _ => Except.ok ()
    update_task := fun _ _ _ _ _ => Except.ok () }

/-- The §8 scenario payload `{durata: 3, preferences: ["mare"]}`. -/
def outPrefs : Dict := [("durata", PyVal.vInt 3), ("preferences", PyVal.vStr "mare")]

/-- C1 counterexample: the code keeps no CompletionRecord, so a second
`complete_task` for the same task id evaluates the very same call sequence
again: both calls succeed, and the combined trace of the two calls contains
two `update_task` round-trips (and two `poll_task` acquisitions) — not the
claimed at-most-one effective remote update with a short-circuited second
call. -/
theorem C1_second_call_repeats_update :
    (complete_task gwOk stCached "t1" "COMPLETED" outPrefs).1 = true ∧
    countUpdates ((complete_task gwOk stCached "t1" "COMPLETED" outPrefs).2.2 ++
      (complete_task gwOk stCached "t1" "COMPLETED" outPrefs).2.2) = 2 := by decide

/-- C1 amended: `complete_task` keeps no completion record; each successful
call performs exactly one `update_task` round-trip, so a repeated call for
the same task id re-contacts the engine and the pair of calls performs two
effective remote updates — while both calls do return the same Success
value, since the call sequence is re-evaluated identically. -/
theorem C1_every_call_updates (gw : Gateway) (st : SState) (task_id status : String)
    (output : Dict)
    (h : (complete_task gw st task_id status output).1 = true) :
    countUpdates (complete_task gw st task_id status output).2.2 = 1 ∧
    countUpdates ((complete_task gw st task_id status output).2.2 ++
      (complete_task gw st task_id status output).2.2) = 2 := by
  have h1 : countUpdates (complete_task gw st task_id status output).2.2 = 1 := by
    cases hg : gw.get_task task_id with
    | error e => simp [complete_task, hg] at h
    | ok task =>
      cases hp : gw.poll_task task.task_type "streamlit_ui" with
      | error e => simp [complete_task, hg, hp] at h
      | ok u =>
        cases hl : SessionState.lookup st "workflow_id" with
        | none => simp [complete_task, hg, hp, hl] at h
        | some wfid =>
          cases hu : gw.update_task task_id wfid "streamlit_ui" status output with
          | error e => simp [complete_task, hg, hp, hl, hu] at h
          | ok u2 => simp [complete_task, hg, hp, hl, hu, countUpdates, isUpdateCall]
  refine ⟨h1, ?_⟩
  simp [countUpdates, List.filter_append] at h1 ⊢
  omega

/-- Witness for C1 amended: on the all-succeeding gateway the first call
succeeds, performs one remote update, and the repeated pair performs two. -/
theorem C1_every_call_updates_witness :
    countUpdates (complete_task gwOk stCached "t1" "COMPLETED" outPrefs).2.2 = 1 ∧
    countUpdates ((complete_task gwOk stCached "t1" "COMPLETED" outPrefs).2.2 ++
      (complete_task gwOk stCached "t1" "COMPLETED" outPrefs).2.2) = 2 :=
  C1_every_call_updates gwOk stCached "t1" "COMPLETED" outPrefs (by decide)

/-! ### Waiter step lemmas -/

/-- One iteration of `wait_for_output_key`, unfolded. -/
lemma wait_output_succ (polls : Nat → Except String (Option Dict)) (key : String)
    (i fuel : Nat) :
    wait_for_output_key polls key i (fuel + 1) =
      match polls i with
      | .error _ => wait_for_output_key polls key (i + 1) fuel
      | .ok out =>
        if output_key_ready out key then output_key_value out key
        else wait_for_output_key polls key (i + 1) fuel := rfl

/-- An iteration whose poll raises keeps waiting. -/
lemma wait_output_step_error (polls : Nat → Except String (Option Dict)) (key : String)
    (i fuel : Nat) (e : String) (hp : polls i = Except.error e) :
    wait_for_output_key polls key i (fuel + 1) =
      wait_for_output_key polls key (i + 1) fuel := by
  rw [wait_output_succ, hp]

/-- An iteration whose poll returns an output either exits on a ready key or
keeps waiting. -/
lemma wait_output_step_ok (polls : Nat → Except String (Option Dict)) (key : String)
    (i fuel : Nat) (out : Option Dict) (hp : polls i = Except.ok out) :
    wait_for_output_key polls key i (fuel + 1) =
      (if output_key_ready out key then output_key_value out key
       else wait_for_output_key polls key (i + 1) fuel) := by
  rw [wait_output_succ, hp]

/-- On a run whose output never becomes available, `wait_for_output_key`
has produced no value after any number of iterations. -/
lemma wait_output_empty_forever (key : String) :
    ∀ (fuel i : Nat),
      wait_for_output_key (fun _ => Except.ok none) key i fuel = none := by
  intro fuel
  induction fuel with
  | zero => intro i; rfl
  | succ fuel ih =>
    intro i
    rw [wait_output_step_ok (fun _ => Except.ok none) key i fuel none rfl]
    simp only [output_key_ready, Bool.false_eq_true, if_false]
    exact ih (i + 1)

/-- One iteration of `wait_for_task_to_be_available`, unfolded. -/
lemma wait_task_succ (polls : Nat → Except String (List Task)) (ref_name : String)
    (i fuel : Nat) :
    wait_for_task_to_be_available polls ref_name i (fuel + 1) =
      match fetch_task_by_ref (polls i) ref_name with
      | some t => some t.task_id
      | none => wait_for_task_to_be_available polls ref_name (i + 1) fuel := rfl

/-- When the locator never finds the task, the bounded waiter runs to its
timeout and returns `none`. -/
lemma wait_task_never_found (polls : Nat → Except String (List Task)) (ref_name : String)
    (h : ∀ i, fetch_task_by_ref (polls i) ref_name = none) :
    ∀ (fuel i : Nat), wait_for_task_to_be_available polls ref_name i fuel = none := by
  intro fuel
  induction fuel with
  | zero => intro i; rfl
  | succ fuel ih =>
    intro i
    rw [wait_task_succ, h i]
    exact ih (i + 1)

/-! ### C3 — waitForOutputKey never returns early and returns the polled value -/

/-- C3: whenever `wait_for_output_key` exits with a value, there is a poll
`j` within the iteration budget at which the fetched run output was present,
non-empty, and truthy at the key; the returned value is exactly the output's
value at the key at that poll (hence truthy, never an absent or falsy one);
and every earlier poll — a raised exception, an absent output, a missing
key, or a falsy value — left the loop waiting. -/
theorem C3_wait_output_no_false_positive (polls : Nat → Except String (Option Dict))
    (key : String) :
    ∀ (fuel i : Nat) (v : PyVal), wait_for_output_key polls key i fuel = some v →
      ∃ j d, i ≤ j ∧ j < i + fuel ∧
        polls j = Except.ok (some d) ∧ output_key_ready (some d) key = true ∧
        dictGet d key = some v ∧ v.truthy = true ∧
        ∀ m, i ≤ m → m < j → poll_not_ready (polls m) key = true := by
  intro fuel
  induction fuel with
  | zero => intro i v h; simp [wait_for_output_key] at h
  | succ fuel ih =>
    intro i v h
    cases he : polls i with
    | error e =>
      rw [wait_output_step_error polls key i fuel e he] at h
      obtain ⟨j, d, hij, hjf, hpj, hready, hget, htr, hbefore⟩ := ih (i + 1) v h
      refine ⟨j, d, by omega, by omega, hpj, hready, hget, htr, ?_⟩
      intro m him hmj
      rcases Nat.lt_or_ge m (i + 1) with hm | hm
      · have : m = i := by omega
        subst this
        simp [poll_not_ready, he]
      · exact hbefore m hm hmj
    | ok out =>
      rw [wait_output_step_ok polls key i fuel out he] at h
      by_cases hr : output_key_ready out key = true
      · rw [if_pos hr] at h
        cases out with
        | none => simp [output_key_ready] at hr
        | some d =>
          have hget : dictGet d key = some v := by
            simpa [output_key_value] using h
          have htr : v.truthy = true := by
            simp [output_key_ready, hget] at hr
            exact hr.2
          exact ⟨i, d, Nat.le_refl i, by omega, he, hr, hget, htr,
            fun m h1 h2 => absurd (Nat.lt_of_le_of_lt h1 h2) (Nat.lt_irrefl i)⟩
      · rw [if_neg hr] at h
        obtain ⟨j, d, hij, hjf, hpj, hready, hget, htr, hbefore⟩ := ih (i + 1) v h
        refine ⟨j, d, by omega, by omega, hpj, hready, hget, htr, ?_⟩
        intro m him hmj
        rcases Nat.lt_or_ge m (i + 1) with hm | hm
        · have : m = i := by omega
          subst this
          simp [poll_not_ready, he, hr]
        · exact hbefore m hm hmj

/-- The §8 scenario poll stream: the run's output starts empty, one poll
raises a transient error, then the output carries the itinerary. -/
def pollsScenario : Nat → Except String (Option Dict)
  | 0 => Except.ok (some [])
  | 1 => Except.error "transient"
  | _ => Except.ok (some [("itinerary", PyVal.vStr "Day 1...")])

/-- Witness for C3: on the scenario stream the waiter returns
`"Day 1..."`, at a poll where the output really holds it, with every earlier
poll not ready. -/
theorem C3_wait_output_no_false_positive_witness :
    ∃ j d, 0 ≤ j ∧ j < 0 + 5 ∧
      pollsScenario j = Except.ok (some d) ∧
      output_key_ready (some d) "itinerary" = true ∧
      dictGet d "itinerary" = some (PyVal.vStr "Day 1...") ∧
      (PyVal.vStr "Day 1...").truthy = true ∧
      ∀ m, 0 ≤ m → m < j → poll_not_ready (pollsScenario m) "itinerary" = true :=
  C3_wait_output_no_false_positive pollsScenario "itinerary" 5 0
    (PyVal.vStr "Day 1...") (by decide)

/-! ### C8 — timeout support of the polling loops -/

/-- C8 counterexample: `wait_for_output_key` accepts no timeout and no
cancellation signal — on a run whose output never becomes ready the loop
never exits: there is no iteration bound under which it terminates with any
result, let alone a distinguishable Timeout. -/
theorem C8_wait_output_has_no_timeout :
    ¬ ∃ fuel v,
      wait_for_output_key (fun _ => Except.ok none) "itinerary" 0 fuel = some v := by
  rintro ⟨fuel, v, h⟩
  rw [wait_output_empty_forever "itinerary" fuel 0] at h
  exact Option.noConfusion h

/-- C8 amended: of the polling loops only `wait_for_task_to_be_available`
has a timeout: when no actionable task ever appears it stops at its bound
and returns the distinguishable timeout result `None`; `wait_for_output_key`
has no timeout or cancellation parameter, and on a never-ready run it is
still running after every number of iterations. -/
theorem C8_only_wait_task_has_bound (polls : Nat → Except String (List Task))
    (ref_name : String) (n : Nat)
    (h : ∀ i, fetch_task_by_ref (polls i) ref_name = none) :
    wait_for_task_to_be_available polls ref_name 0 n = none ∧
    ∀ (key : String) (m : Nat),
      wait_for_output_key (fun _ => Except.ok none) key 0 m = none :=
  ⟨wait_task_never_found polls ref_name h n 0,
   fun key m => wait_output_empty_forever key m 0⟩

/-- Witness for C8 amended: a 30-iteration timeout on an engine that never
schedules the task returns `None`, while the output waiter never returns. -/
theorem C8_only_wait_task_has_bound_witness :
    wait_for_task_to_be_available (fun _ => Except.ok []) "UserPreferences" 0 30 = none ∧
    ∀ (key : String) (m : Nat),
      wait_for_output_key (fun _ => Except.ok none) key 0 m = none :=
  C8_only_wait_task_has_bound (fun _ => Except.ok []) "UserPreferences" 30
    (fun _ => rfl)

/-! ### C6 — stuck-state classification -/

/-- C6: `is_workflow_stuck` follows the spec's algorithm on every fetched
task list — a present `LogUnhandledDuration` task classifies the run as
stuck with the unhandled-branch reason; otherwise a completed-task filter of
exactly one `UserPreferences` task together with zero SCHEDULED tasks
classifies as stuck with the no-follow-on reason; otherwise the run is
progressing: `is_stuck` is false with no reason. -/
theorem C6_stuck_classification (wf_status : String) (tasks : List Task) :
    ((∃ t ∈ tasks, t.reference_task_name = "LogUnhandledDuration") →
      (is_workflow_stuck wf_status tasks).is_stuck = true ∧
      (is_workflow_stuck wf_status tasks).reason =
        some "Duration of 4 days is not handled by the workflow") ∧
    ((∀ t ∈ tasks, t.reference_task_name ≠ "LogUnhandledDuration") →
      ∀ t, tasks.filter (fun u => u.status == "COMPLETED") = [t] →
        t.reference_task_name = "UserPreferences" →
        tasks.filter (fun u => u.status == "SCHEDULED") = [] →
        (is_workflow_stuck wf_status tasks).is_stuck = true ∧
        (is_workflow_stuck wf_status tasks).reason =
          some "Workflow stopped after UserPreferences - check switch logic") ∧
    ((∀ t ∈ tasks, t.reference_task_name ≠ "LogUnhandledDuration") →
      (∀ t, tasks.filter (fun u => u.status == "COMPLETED") = [t] →
        ¬(t.reference_task_name = "UserPreferences" ∧
          tasks.filter (fun u => u.status == "SCHEDULED") = [])) →
      (is_workflow_stuck wf_status tasks).is_stuck = false ∧
      (is_workflow_stuck wf_status tasks).reason = none) := by
  refine ⟨?_, ?_, ?_⟩
  · rintro ⟨t, ht, href⟩
    cases hf : tasks.find? (fun u => u.reference_task_name == "LogUnhandledDuration") with
    | none =>
      rw [List.find?_eq_none] at hf
      exact absurd (by simp [href] : (t.reference_task_name == "LogUnhandledDuration") = true)
        (hf t ht)
    | some u => constructor <;> simp [is_workflow_stuck, hf]
  · intro hno t hc hup hs
    have hf : tasks.find? (fun u => u.reference_task_name == "LogUnhandledDuration") = none :=
      List.find?_eq_none.mpr (fun u hu => by simpa using hno u hu)
    constructor <;> simp [is_workflow_stuck, hf, hc, hup, hs]
  · intro hno hnot2
    have hf : tasks.find? (fun u => u.reference_task_name == "LogUnhandledDuration") = none :=
      List.find?_eq_none.mpr (fun u hu => by simpa using hno u hu)
    cases hc : tasks.filter (fun u => u.status == "COMPLETED") with
    | nil => constructor <;> simp [is_workflow_stuck, hf, hc]
    | cons t rest =>
      cases rest with
      | cons t2 rest2 => constructor <;> simp [is_workflow_stuck, hf, hc]
      | nil =>
        by_cases hup : t.reference_task_name = "UserPreferences"
        · have hs : tasks.filter (fun u => u.status == "SCHEDULED") ≠ [] :=
            fun hs0 => hnot2 t hc ⟨hup, hs0⟩
          have hlen : ((tasks.filter (fun u => u.status == "SCHEDULED")).length == 0) = false := by
            simpa [List.length_eq_zero] using hs
          constructor <;> simp [is_workflow_stuck, hf, hc, hup, hlen]
        · have hbeq : (t.reference_task_name == "UserPreferences") = false := by
            simpa using hup
          constructor <;> simp [is_workflow_stuck, hf, hc, hbeq]

/-- The intake task after completion, as the only task of a freshly stuck
run. -/
def intakeDone : Task := ⟨"t1", "UserPreferences", "COMPLETED", "SIMPLE"⟩

/-- A scheduled follow-on task of a progressing run. -/
def followOnSched : Task := ⟨"t2", "GenerateItinerary_ref", "SCHEDULED", "SIMPLE"⟩

/-- Witness for C6: the run `[UserPreferences:COMPLETED]` with no SCHEDULED
tasks is classified stuck, and the run with one SCHEDULED follow-on task is
classified progressing. -/
theorem C6_stuck_classification_witness :
    ((is_workflow_stuck "RUNNING" [intakeDone]).is_stuck = true ∧
      (is_workflow_stuck "RUNNING" [intakeDone]).reason =
        some "Workflow stopped after UserPreferences - check switch logic") ∧
    ((is_workflow_stuck "RUNNING" [intakeDone, followOnSched]).is_stuck = false ∧
      (is_workflow_stuck "RUNNING" [intakeDone, followOnSched]).reason = none) :=
  ⟨(C6_stuck_classification "RUNNING" [intakeDone]).2.1 (by decide) intakeDone
      (by decide) (by decide) (by decide),
   (C6_stuck_classification "RUNNING" [intakeDone, followOnSched]).2.2 (by decide)
      (fun t _ hcon => by
        have hsched : ([intakeDone, followOnSched].filter
            (fun u => u.status == "SCHEDULED")) = [followOnSched] := by decide
        rw [hsched] at hcon
        exact List.noConfusion hcon.2)⟩

/-! ### C9 — step-counter invariant -/

/-- `set_step` always lands in [0, 3]. -/
lemma set_step_bounds (s : Int) : 0 ≤ set_step s ∧ set_step s ≤ 3 := by
  unfold set_step
  constructor
  · exact le_max_left 0 (min s 3)
  · rcases le_total s 3 with h | h <;> simp [max_le_iff, min_le_iff, h]

/-- `advance_step` keeps a counter in [0, 3] and never decreases one. -/
lemma advance_step_bounds (c : Int) (h0 : 0 ≤ c) (h3 : c ≤ 3) :
    c ≤ advance_step c ∧ 0 ≤ advance_step c ∧ advance_step c ≤ 3 := by
  unfold advance_step
  refine ⟨le_min (by omega) h3, le_min (by omega) (by omega), min_le_right _ _⟩

/-- A fold of step operations preserves the [0, 3] window. -/
lemma runSteps_aux (ops : List StepOp) :
    ∀ c : Int, 0 ≤ c → c ≤ 3 →
      0 ≤ ops.foldl stepApply c ∧ ops.foldl stepApply c ≤ 3 := by
  induction ops with
  | nil => intro c h1 h2; simpa using ⟨h1, h2⟩
  | cons op ops ih =>
    intro c h1 h2
    simp only [List.foldl_cons]
    cases op with
    | setStep s =>
      exact ih (stepApply c (StepOp.setStep s)) (set_step_bounds s).1 (set_step_bounds s).2
    | advanceStep =>
      obtain ⟨-, hb0, hb3⟩ := advance_step_bounds c h1 h2
      exact ih (stepApply c StepOp.advanceStep) hb0 hb3

/-- C9: the step counter starts at 0 (`initialize` stores the default
`current_step = 0`); `set_step` clamps any integer into [0, 3];
`advance_step` never decreases a counter in range and keeps it in range; and
every sequence of `set_step`/`advance_step` operations run from the
initialized counter stays within [0, 3]. -/
theorem C9_step_counter_invariant :
    SessionState.get (SessionState.initState []) "current_step" = SVal.sInt 0 ∧
    (∀ s : Int, 0 ≤ set_step s ∧ set_step s ≤ 3) ∧
    (∀ c : Int, 0 ≤ c → c ≤ 3 →
      c ≤ advance_step c ∧ 0 ≤ advance_step c ∧ advance_step c ≤ 3) ∧
    (∀ ops : List StepOp, 0 ≤ runSteps ops ∧ runSteps ops ≤ 3) :=
  ⟨by decide, set_step_bounds, advance_step_bounds,
   fun ops => runSteps_aux ops 0 (by omega) (by omega)⟩

/-- Witness for C9: at the in-range counter 2, `advance_step` is monotone
and stays within bounds. -/
theorem C9_step_counter_invariant_witness :
    (2 : Int) ≤ advance_step 2 ∧ 0 ≤ advance_step 2 ∧ advance_step 2 ≤ 3 :=
  C9_step_counter_invariant.2.2.1 2 (by decide) (by decide)

end WanderFlow
